import Mathlib

/-
Verification of the PragyanAI Student Project Tracker repository.

The repository contains two deployment variants of the same Streamlit
application:
  * `PragyanAI_Student_ProjectTracker_App.py` — a single-file two-role
    (admin / user) variant with its own `login_user`, `init_db` and
    `execute_query`;
  * `utils.py` plus the `pages/` directory — a multi-page three-role
    (super_admin / project_manager / team_member) variant.

The definitions below are shallow embeddings of the Python functions and of
the SQL statements they execute, translated clause by clause.  SQLite rows
become Lean structures, tables become lists of rows, `WHERE` clauses become
filters, `fetchone` becomes `List.head?`/`List.find?`, and the sqlite
exception behaviour is made explicit with `Except`.
-/

/-- The sqlite error domain as observed by the handlers: a uniqueness
constraint violation (`sqlite3.IntegrityError`) versus any other
`sqlite3.Error`. -/
inductive SqlError where
  | integrityError
  | operationalError
deriving DecidableEq, Repr

/-- The `fetch` argument of `execute_query`: `"one"`, `"all"`, or omitted
(`Option.none` models Python `fetch=None`). -/
inductive Fetch where
  | one
  | all
deriving DecidableEq, Repr

/-- What the sqlite cursor provides after a successful `cursor.execute`:
`cursor.lastrowid` and the result rows available for fetching. -/
structure QueryOutcome (α : Type) where
  lastId : Nat
  rows : List α
deriving DecidableEq, Repr

/-- The Python value returned by the `execute_query` helpers: `None`, an
integer row id, a single row, or a list of rows. -/
inductive PyVal (α : Type) where
  | pyNone
  | int (n : Nat)
  | row (r : α)
  | rows (rs : List α)
deriving DecidableEq, Repr

/-- `utils.execute_query` (utils.py lines 93-111): executes the query; on
`fetch="one"` returns `cursor.fetchone()` (the first row, or Python `None`
when there is no row), on `fetch="all"` returns `cursor.fetchall()`, and
with no fetch argument returns `cursor.lastrowid`; any `sqlite3.Error` is
caught, an error message is displayed, and `None` is returned. -/
def executeQueryUtils {α : Type} (fetch : Option Fetch)
    (outcome : Except SqlError (QueryOutcome α)) : PyVal α :=
  match outcome with
  | .error _ => .pyNone
  | .ok o =>
    match fetch with
    | some .one =>
      match o.rows.head? with
      | some r => .row r
      | none => .pyNone
    | some .all => .rows o.rows
    | none => .int o.lastId

/-- `execute_query` of the single-file variant
(PragyanAI_Student_ProjectTracker_App.py lines 105-119): the same fetch
behaviour but with no `try`/`except`, so a sqlite error propagates to the
caller. -/
def executeQueryApp {α : Type} (fetch : Option Fetch)
    (outcome : Except SqlError (QueryOutcome α)) : Except SqlError (PyVal α) :=
  match outcome with
  | .error e => .error e
  | .ok o =>
    .ok (match fetch with
      | some .one =>
        match o.rows.head? with
        | some r => .row r
        | none => .pyNone
      | some .all => .rows o.rows
      | none => .int o.lastId)

/-- Claim C10: `utils.execute_query` never propagates an exception: on any
`sqlite3.Error` it returns `None` and all errors produce the same `None`
value, so callers cannot tell a uniqueness violation from any other
database failure; on success it returns the fetched row / rows when a fetch
mode is given, otherwise the last inserted row id. -/
theorem c10_execute_query_error_contract {α : Type} (fetch : Option Fetch)
    (e e2 : SqlError) (o : QueryOutcome α) :
    executeQueryUtils fetch (Except.error e) = (PyVal.pyNone : PyVal α) ∧
    executeQueryUtils (α := α) fetch (Except.error e) =
      executeQueryUtils fetch (Except.error e2) ∧
    executeQueryUtils (some Fetch.all) (Except.ok o) = PyVal.rows o.rows ∧
    executeQueryUtils Option.none (Except.ok o) = PyVal.int o.lastId ∧
    executeQueryUtils (some Fetch.one) (Except.ok o) =
      (match o.rows.head? with
       | some r => PyVal.row r
       | Option.none => PyVal.pyNone) := by
  refine ⟨rfl, rfl, rfl, rfl, rfl⟩

/-- Modelled from the spec: the `UNIQUE` constraint on `projects.name` lives
in `project_tracker.sql`, which is not among the repository sources.  Per
the spec, inserting a project whose name already exists raises an integrity
error and writes no row; otherwise the row is appended and the new row id
is returned.  Only the name column is modelled, since it alone drives the
uniqueness behaviour under verification. -/
def insertProject (db : List String) (name : String) :
    List String × Except SqlError (QueryOutcome String) :=
  if name ∈ db then (db, .error .integrityError)
  else (db ++ [name], .ok ⟨db.length + 1, []⟩)

/-- The user-visible outcome of the single-file variant's create-project
handler: the success message or the dedicated duplicate-name message. -/
inductive CreateMsg where
  | created
  | alreadyExists
deriving DecidableEq, Repr

/-- `create_project_form` handler
(PragyanAI_Student_ProjectTracker_App.py lines 198-203): the INSERT goes
through the variant's own `execute_query`, which propagates sqlite errors,
and the handler catches `sqlite3.IntegrityError` with a dedicated
"already exists" message; any other sqlite error is uncaught. -/
def createProjectApp (db : List String) (name : String) :
    Except SqlError (List String × CreateMsg) :=
  match insertProject db name with
  | (db2, .ok _) => .ok (db2, .created)
  | (db2, .error .integrityError) => .ok (db2, .alreadyExists)
  | (_, .error e) => .error e

/-- `add_project_form` handler (pages/Admin_Panel.py lines 40-44): the
INSERT goes through `utils.execute_query` with no `try`/`except` of its
own, so any sqlite failure — including a duplicate name — comes back as the
single value `None`.  The description and manager columns are omitted as
they do not affect this behaviour. -/
def addProjectAdminPanel (db : List String) (name : String) :
    List String × PyVal String :=
  match insertProject db name with
  | (db2, out) => (db2, executeQueryUtils Option.none out)

/-- Claim C5, counterexample: in the Admin Panel handler a duplicate-name
create returns the very same `None` value as a generic database failure
does (and the concrete project list "Alpha" is left unchanged), so the
claimed `DuplicateKeyError` distinct from a generic write failure does not
exist on this code path. -/
theorem c5_counterexample :
    addProjectAdminPanel ["Alpha"] "Alpha" = (["Alpha"], PyVal.pyNone) ∧
    executeQueryUtils (α := String) Option.none
      (Except.error SqlError.operationalError) = PyVal.pyNone :=
  ⟨rfl, rfl⟩

/-- Claim C5, amended: in the single-file variant's create-project handler,
of two creates with the identical name the first succeeds and the second is
caught as an IntegrityError with a distinct already-exists message, and the
failed call adds no row; in the Admin Panel handler the duplicate failure
is swallowed by `utils.execute_query` into the generic `None` value that
every database failure produces, so that caller cannot distinguish the two. -/
theorem c5_amended (db : List String) (name : String) (h : name ∉ db) :
    createProjectApp db name = .ok (db ++ [name], .created) ∧
    createProjectApp (db ++ [name]) name = .ok (db ++ [name], .alreadyExists) ∧
    addProjectAdminPanel (db ++ [name]) name = (db ++ [name], PyVal.pyNone) ∧
    ∀ e : SqlError,
      executeQueryUtils (α := String) Option.none (Except.error e) = PyVal.pyNone := by
  have hmem : name ∈ db ++ [name] := List.mem_append_right _ (List.mem_singleton.mpr rfl)
  refine ⟨?_, ?_, ?_, fun e => rfl⟩
  · simp [createProjectApp, insertProject, h]
  · simp [createProjectApp, insertProject, hmem]
  · simp [addProjectAdminPanel, insertProject, hmem, executeQueryUtils]

/-- Claim C5, witness: the amended statement evaluated on the empty project
list and the name "Alpha". -/
theorem c5_witness :
    createProjectApp [] "Alpha" = .ok (["Alpha"], .created) ∧
    createProjectApp ["Alpha"] "Alpha" = .ok (["Alpha"], .alreadyExists) := by
  have h := c5_amended [] "Alpha" (by simp)
  exact ⟨h.1, h.2.1⟩

/-- The task status domain `{To Do, In Progress, Done, Blocked}` used by
both variants. -/
inductive TaskStatus where
  | toDo
  | inProgress
  | done
  | blocked
deriving DecidableEq, Repr, BEq

/-- A `tasks` row restricted to the columns the status-write claims touch. -/
structure TaskRow where
  id : Nat
  status : TaskStatus
  completion_date : Option String
deriving DecidableEq, Repr

/-- The invariant of spec section 3: `completion_date` is set if and only if
`status = Done`. -/
def taskInvariant (t : TaskRow) : Prop :=
  t.status = .done ↔ t.completion_date ≠ none

instance (t : TaskRow) : Decidable (taskInvariant t) := by
  unfold taskInvariant
  infer_instance

/-- Status update of pages/My_Tasks_&_Schedule.py lines 80-94: when the new
status is `Done` the write is
`UPDATE tasks SET status = ?, completion_date = ? WHERE id = ?` with today's
date; otherwise it is
`UPDATE tasks SET status = ?, completion_date = NULL WHERE id = ?`. -/
def updateStatusSchedule (today : String) (newStatus : TaskStatus) (t : TaskRow) :
    TaskRow :=
  if newStatus = .done then
    { t with status := newStatus, completion_date := some today }
  else
    { t with status := newStatus, completion_date := none }

/-- "My Progress" status update of
PragyanAI_Student_ProjectTracker_App.py lines 490-495:
`UPDATE tasks SET status = ? WHERE id = ?` — `completion_date` is never
touched by this write. -/
def updateStatusMain (newStatus : TaskStatus) (t : TaskRow) : TaskRow :=
  { t with status := newStatus }

/-- Claim C1, counterexample: the main-app status write applied to a `Done`
task with a recorded completion date, moving it to `In Progress`, leaves
`completion_date` set while `status ≠ Done`, so the claimed invariant does
not hold immediately after every status write. -/
theorem c1_counterexample :
    ¬ taskInvariant
      (updateStatusMain .inProgress ⟨1, .done, some "2024-01-01"⟩) := by
  decide

/-- Claim C1, amended: the status-update handler of the My Tasks & Schedule
page establishes the invariant `status = Done ⇔ completion_date ≠ null`
after every write (it sets `completion_date` in the same write exactly when
the new status is `Done` and clears it otherwise); the "My Progress" status
update of the single-file app writes `status` only, leaving
`completion_date` unchanged, and therefore does not maintain the
invariant. -/
theorem c1_amended (today : String) (s : TaskStatus) (t : TaskRow) :
    taskInvariant (updateStatusSchedule today s t) ∧
    (updateStatusMain s t).status = s ∧
    (updateStatusMain s t).completion_date = t.completion_date := by
  refine ⟨?_, rfl, rfl⟩
  unfold taskInvariant updateStatusSchedule
  by_cases h : s = TaskStatus.done <;> simp [h]

/-- A row of the `super_admins` / `project_managers` tables. -/
structure CredRow where
  id : Nat
  username : String
  password : String
deriving DecidableEq, Repr

/-- A row of the `team_members` table. -/
structure MemberRow where
  id : Nat
  name : String
  email : String
  password : String
deriving DecidableEq, Repr

/-- The three credential tables consulted by `utils.login_user`. -/
structure AuthDB where
  super_admins : List CredRow
  project_managers : List CredRow
  team_members : List MemberRow
deriving Repr

/-- The `user_type_selection` argument of `utils.login_user`. -/
inductive UserTypeSelection where
  | user
  | manager_or_admin
deriving DecidableEq, Repr

/-- The resolved role stored into the session as `user_type`. -/
inductive Role where
  | user
  | super_admin
  | project_manager
deriving DecidableEq, Repr

/-- The authenticated principal stored into the session as `user_info`
(role, row id, display name). -/
structure Principal where
  role : Role
  id : Nat
  name : String
deriving DecidableEq, Repr

/-- `utils.login_user` (utils.py lines 49-77).  `verify` abstracts the
external bcrypt check `pwd_context.verify`.  For `"user"` the row is looked
up in `team_members` by email; for `"manager_or_admin"` the resolver first
runs `SELECT * FROM super_admins WHERE username = ?` and only if that
returns no row does it run the same lookup on `project_managers`; the
password of the found row is then verified and on success the principal is
built from that row. -/
def login_user (verify : String → String → Bool) (db : AuthDB)
    (identifier password : String) (sel : UserTypeSelection) : Option Principal :=
  match sel with
  | .user =>
    match db.team_members.find? (fun r => r.email == identifier) with
    | some u =>
      if verify password u.password then some ⟨.user, u.id, u.name⟩ else none
    | none => none
  | .manager_or_admin =>
    match db.super_admins.find? (fun r => r.username == identifier) with
    | some u =>
      if verify password u.password then some ⟨.super_admin, u.id, u.username⟩
      else none
    | none =>
      match db.project_managers.find? (fun r => r.username == identifier) with
      | some u =>
        if verify password u.password then
          some ⟨.project_manager, u.id, u.username⟩
        else none
      | none => none

/-- Claim C2: under the `manager_or_admin` claim the resolver checks the
`super_admins` table first and `project_managers` only when no super-admin
row matched, so when the identifier exists in `super_admins` any
authenticated principal has role `super_admin` (first match wins); and in
every case the principal's role matches the table the credential was found
in, with a verified password from that very table. -/
theorem c2_login_role_matches_table (verify : String → String → Bool)
    (db : AuthDB) (identifier password : String) :
    ((∃ u ∈ db.super_admins, u.username = identifier) →
      ∀ p, login_user verify db identifier password .manager_or_admin = some p →
        p.role = .super_admin) ∧
    (∀ p, login_user verify db identifier password .manager_or_admin = some p →
      (p.role = .super_admin ∧ ∃ u ∈ db.super_admins,
          u.username = identifier ∧ verify password u.password = true ∧
          p.id = u.id ∧ p.name = u.username) ∨
      (p.role = .project_manager ∧
        (∀ u ∈ db.super_admins, u.username ≠ identifier) ∧
        ∃ u ∈ db.project_managers,
          u.username = identifier ∧ verify password u.password = true ∧
          p.id = u.id ∧ p.name = u.username)) ∧
    (∀ p, login_user verify db identifier password .user = some p →
      p.role = .user ∧ ∃ u ∈ db.team_members,
        u.email = identifier ∧ verify password u.password = true ∧
        p.id = u.id ∧ p.name = u.name) := by
  refine ⟨?_, ?_, ?_⟩
  · intro hex p hp
    obtain ⟨u, hu, huname⟩ := hex
    unfold login_user at hp
    cases hfind : db.super_admins.find? (fun r => r.username == identifier) with
    | none =>
      exfalso
      have := List.find?_eq_none.mp hfind u hu
      simp [huname] at this
    | some v =>
      rw [hfind] at hp
      by_cases hv : verify password v.password = true
      · simp [hv] at hp
        rw [← hp]
      · simp [hv] at hp
  · intro p hp
    unfold login_user at hp
    cases hfind : db.super_admins.find? (fun r => r.username == identifier) with
    | some v =>
      rw [hfind] at hp
      by_cases hv : verify password v.password = true
      · simp [hv] at hp
        left
        refine ⟨by rw [← hp], v, List.mem_of_find?_eq_some hfind, ?_, hv, ?_, ?_⟩
        · have := List.find?_some hfind
          simpa using this
        · rw [← hp]
        · rw [← hp]
      · simp [hv] at hp
    | none =>
      rw [hfind] at hp
      cases hfind2 : db.project_managers.find? (fun r => r.username == identifier) with
      | some v =>
        rw [hfind2] at hp
        by_cases hv : verify password v.password = true
        · simp [hv] at hp
          right
          refine ⟨by rw [← hp], ?_, v, List.mem_of_find?_eq_some hfind2, ?_, hv, ?_, ?_⟩
          · intro u hu
            have := List.find?_eq_none.mp hfind u hu
            simpa using this
          · have := List.find?_some hfind2
            simpa using this
          · rw [← hp]
          · rw [← hp]
        · simp [hv] at hp
      | none =>
        rw [hfind2] at hp
        exact absurd hp (by simp)
  · intro p hp
    unfold login_user at hp
    cases hfind : db.team_members.find? (fun r => r.email == identifier) with
    | some v =>
      rw [hfind] at hp
      by_cases hv : verify password v.password = true
      · simp [hv] at hp
        refine ⟨by rw [← hp], v, List.mem_of_find?_eq_some hfind, ?_, hv, ?_, ?_⟩
        · have := List.find?_some hfind
          simpa using this
        · rw [← hp]
        · rw [← hp]
      · simp [hv] at hp
    | none =>
      rw [hfind] at hp
      exact absurd hp (by simp)

/-- Password verification used by the concrete witness database: plain
string comparison standing in for a bcrypt check on a toy hash. -/
def strEqVerify (plain hashed : String) : Bool :=
  plain == hashed

/-- Witness database: the username "bob" exists in both `super_admins` and
`project_managers` with different passwords. -/
def c2db : AuthDB :=
  { super_admins := [⟨1, "bob", "sa-pass"⟩]
    project_managers := [⟨7, "bob", "pm-pass"⟩]
    team_members := [⟨3, "Alice", "alice@example.com", "tm-pass"⟩] }

/-- Claim C2, witness: on the colliding username "bob" the login under the
`manager_or_admin` claim resolves to the super-admin row, and the theorem
applied at this concrete input yields role `super_admin`. -/
theorem c2_witness :
    login_user strEqVerify c2db "bob" "sa-pass" .manager_or_admin =
      some ⟨.super_admin, 1, "bob"⟩ ∧
    (⟨Role.super_admin, 1, "bob"⟩ : Principal).role = .super_admin := by
  refine ⟨by decide, ?_⟩
  exact (c2_login_role_matches_table strEqVerify c2db "bob" "sa-pass").1
    ⟨⟨1, "bob", "sa-pass"⟩, by decide, rfl⟩ _ (by decide)

/-- A `projects` row restricted to the columns the visibility claims use
(`manager_id` is what the Admin Panel variant stores; the single-file
variant inserts projects without it). -/
structure ProjectRow where
  id : Nat
  name : String
  manager_id : Option Nat
deriving DecidableEq, Repr

/-- A `project_members` membership row. -/
structure MembershipRow where
  project_id : Nat
  member_id : Nat
deriving DecidableEq, Repr

/-- The tables consulted by the project listings. -/
structure ProjectDB where
  projects : List ProjectRow
  project_members : List MembershipRow
deriving Repr

/-- Non-admin project selection
(PragyanAI_Student_ProjectTracker_App.py lines 140-144):
`SELECT p.id, p.name FROM projects p JOIN project_members pm ON
p.id = pm.project_id WHERE pm.member_id = ?`, in relational set
semantics. -/
def assignedProjects (db : ProjectDB) (memberId : Nat) : List ProjectRow :=
  db.projects.filter fun p =>
    db.project_members.any fun pm =>
      pm.project_id == p.id && pm.member_id == memberId

/-- Project Manager Dashboard selector
(PragyanAI_Student_ProjectTracker_App.py line 261):
`SELECT id, name FROM projects` — every project, with no manager
condition. -/
def pmDashboardProjects (db : ProjectDB) : List ProjectRow :=
  db.projects

/-- Claim C3, counterexample: a concrete database whose only project has
`manager_id = 2` still appears in the manager dashboard's project list — the
list is independent of the viewing manager — so a manager with id 1 does
not see only the projects whose `manager_id` equals their own id. -/
theorem c3_counterexample :
    (⟨1, "Alpha", some 2⟩ : ProjectRow) ∈
      pmDashboardProjects ⟨[⟨1, "Alpha", some 2⟩], []⟩ ∧
    (⟨1, "Alpha", some 2⟩ : ProjectRow).manager_id ≠ some 1 := by
  refine ⟨List.mem_singleton.mpr rfl, by decide⟩

/-- Claim C3, amended: a team member's project list contains exactly the
projects for which a `project_members` row with that member's id exists;
the Project Manager Dashboard's selector, however, lists all projects
regardless of `manager_id` (as does the super-admin view, which per the
spec is allowed to see everything). -/
theorem c3_amended (db : ProjectDB) (memberId : Nat) (p : ProjectRow) :
    (p ∈ assignedProjects db memberId ↔
      p ∈ db.projects ∧ ∃ pm ∈ db.project_members,
        pm.project_id = p.id ∧ pm.member_id = memberId) ∧
    pmDashboardProjects db = db.projects := by
  refine ⟨?_, rfl⟩
  unfold assignedProjects
  simp [List.mem_filter, List.any_eq_true]

/-- The `task_issues` status domain.  The single-file variant stores it as
the text column `status` ('Open'/'Resolved'); the pages variant stores the
same state as the integer column `is_resolved` (0/1). -/
inductive IssueStatus where
  | Open
  | Resolved
deriving DecidableEq, Repr

/-- A `task_issues` row restricted to the columns the lifecycle claims
touch. -/
structure IssueRec where
  id : Nat
  status : IssueStatus
deriving DecidableEq, Repr

/-- An `issue_responses` row. -/
structure ResponseRow where
  id : Nat
  issue_id : Nat
  responder_id : Nat
  response_text : String
deriving DecidableEq, Repr

/-- The issue/response tables. -/
structure IssueDB where
  task_issues : List IssueRec
  issue_responses : List ResponseRow
deriving DecidableEq, Repr

/-- `UPDATE task_issues SET status = 'Resolved' WHERE id = ?` (equivalently
`SET is_resolved = 1` in the pages variant). -/
def resolveIssue (issues : List IssueRec) (issueId : Nat) : List IssueRec :=
  issues.map fun i =>
    if i.id == issueId then { i with status := .Resolved } else i

/-- The status of the issue with the given id, as a
`SELECT status FROM task_issues WHERE id = ?` fetchone would report it. -/
def issueStatus (db : IssueDB) (issueId : Nat) : Option IssueStatus :=
  (db.task_issues.find? fun i => i.id == issueId).map (·.status)

/-- `INSERT INTO task_issues ...` as performed by the issue forms
(My Progress / Doubts & Mentoring): a fresh row is appended.  The inserts
do not list the status column; that the schema default makes a new issue
`Open` is modelled from the spec (`project_tracker.sql` is not among the
sources). -/
def createIssue (db : IssueDB) : IssueDB :=
  { db with task_issues := db.task_issues ++ [⟨db.task_issues.length + 1, .Open⟩] }

/-- "Post Response & Resolve Issue" handler
(PragyanAI_Student_ProjectTracker_App.py lines 345-357): when the response
text is non-empty it inserts the response row and then unconditionally runs
`UPDATE task_issues SET status = 'Resolved' WHERE id = ?` — there is no
resolve flag. -/
def respondMain (responderId : Nat) (text : String) (issueId : Nat)
    (db : IssueDB) : IssueDB :=
  if text = "" then db
  else
    { task_issues := resolveIssue db.task_issues issueId
      issue_responses := db.issue_responses ++
        [⟨db.issue_responses.length + 1, issueId, responderId, text⟩] }

/-- Response form of pages/Project_Manager_Dashboard.py lines 115-135: when
the response text is non-empty it inserts the response row, and only when
the `mark_resolved` checkbox is set does it additionally run
`UPDATE task_issues SET is_resolved = 1 WHERE id = ?`. -/
def respondDashboard (markResolved : Bool) (responderId : Nat) (text : String)
    (issueId : Nat) (db : IssueDB) : IssueDB :=
  if text = "" then db
  else
    let db2 : IssueDB :=
      { db with issue_responses := db.issue_responses ++
          [⟨db.issue_responses.length + 1, issueId, responderId, text⟩] }
    if markResolved then
      { db2 with task_issues := resolveIssue db2.task_issues issueId }
    else db2

/-- Every operation offered by the system that writes the `task_issues`
table: raising a new issue, the single-file respond-and-resolve handler,
and the pages respond form with its checkbox. -/
inductive IssueOp where
  | create
  | respondMainOp (responderId : Nat) (text : String) (issueId : Nat)
  | respondDashboardOp (markResolved : Bool) (responderId : Nat) (text : String)
      (issueId : Nat)

/-- Interpretation of one operation. -/
def applyOp (op : IssueOp) (db : IssueDB) : IssueDB :=
  match op with
  | .create => createIssue db
  | .respondMainOp responderId text issueId => respondMain responderId text issueId db
  | .respondDashboardOp m responderId text issueId =>
      respondDashboard m responderId text issueId db

/-- A sequence of operations, applied left to right. -/
def runOps (ops : List IssueOp) (db : IssueDB) : IssueDB :=
  ops.foldl (fun d op => applyOp op d) db

theorem find?_resolveIssue (issues : List IssueRec) (issueId i : Nat) :
    (resolveIssue issues issueId).find? (fun r => r.id == i) =
      (issues.find? fun r => r.id == i).map
        (fun r => if r.id == issueId then { r with status := .Resolved } else r) := by
  unfold resolveIssue
  rw [List.find?_map]
  have hp : ((fun r : IssueRec => r.id == i) ∘
      fun r : IssueRec =>
        if r.id == issueId then { r with status := .Resolved } else r) =
      fun r : IssueRec => r.id == i := by
    funext r
    by_cases h : r.id == issueId <;> simp [Function.comp, h]
  rw [hp]

theorem issueStatus_ext (db : IssueDB) (i : Nat) :
    issueStatus db i = (db.task_issues.find? fun r => r.id == i).map (·.status) :=
  rfl

theorem respondMain_task_issues (responderId : Nat) (text : String)
    (issueId : Nat) (db : IssueDB) (ht : text ≠ "") :
    (respondMain responderId text issueId db).task_issues =
      resolveIssue db.task_issues issueId := by
  unfold respondMain
  simp [ht]

theorem respondDashboard_true_task_issues (responderId : Nat) (text : String)
    (issueId : Nat) (db : IssueDB) (ht : text ≠ "") :
    (respondDashboard true responderId text issueId db).task_issues =
      resolveIssue db.task_issues issueId := by
  unfold respondDashboard
  simp [ht]

theorem respondDashboard_false_task_issues (responderId : Nat) (text : String)
    (issueId : Nat) (db : IssueDB) (ht : text ≠ "") :
    (respondDashboard false responderId text issueId db).task_issues =
      db.task_issues := by
  unfold respondDashboard
  simp [ht]

theorem respondDashboard_responses (m : Bool) (responderId : Nat) (text : String)
    (issueId : Nat) (db : IssueDB) (ht : text ≠ "") :
    (respondDashboard m responderId text issueId db).issue_responses.length =
      db.issue_responses.length + 1 := by
  unfold respondDashboard
  cases m <;> simp [ht]

theorem issueStatus_applyOp_resolved (op : IssueOp) (db : IssueDB) (i : Nat)
    (h : issueStatus db i = some .Resolved) :
    issueStatus (applyOp op db) i = some .Resolved := by
  obtain ⟨r, hfind, hr⟩ : ∃ r, db.task_issues.find? (fun x => x.id == i) = some r ∧
      r.status = .Resolved := by
    unfold issueStatus at h
    cases hf : db.task_issues.find? (fun x => x.id == i) with
    | none => rw [hf] at h; simp at h
    | some r =>
      rw [hf] at h
      simp only [Option.map_some'] at h
      exact ⟨r, rfl, by injection h⟩
  cases op with
  | create =>
    unfold applyOp createIssue issueStatus
    rw [List.find?_append, hfind]
    simp [hr]
  | respondMainOp responderId text issueId =>
    show issueStatus (respondMain responderId text issueId db) i = _
    by_cases ht : text = ""
    · unfold respondMain
      rw [if_pos ht]
      exact h
    · rw [issueStatus_ext, respondMain_task_issues responderId text issueId db ht,
        find?_resolveIssue, hfind]
      by_cases hid : r.id = issueId <;> simp [hid, hr]
  | respondDashboardOp m responderId text issueId =>
    show issueStatus (respondDashboard m responderId text issueId db) i = _
    by_cases ht : text = ""
    · unfold respondDashboard
      rw [if_pos ht]
      exact h
    · cases m with
      | false =>
        rw [issueStatus_ext,
          respondDashboard_false_task_issues responderId text issueId db ht, hfind]
        simp [hr]
      | true =>
        rw [issueStatus_ext,
          respondDashboard_true_task_issues responderId text issueId db ht,
          find?_resolveIssue, hfind]
        by_cases hid : r.id = issueId <;> simp [hid, hr]

/-- Claim C7: a resolved issue never becomes Open again — after any
sequence of the operations the system offers on `task_issues`, an issue
whose status is `Resolved` still has status `Resolved`; no operation moves
it back. -/
theorem c7_resolved_never_reopens (ops : List IssueOp) (db : IssueDB)
    (issueId : Nat) (h : issueStatus db issueId = some .Resolved) :
    issueStatus (runOps ops db) issueId = some .Resolved := by
  induction ops generalizing db with
  | nil => exact h
  | cons op rest ih =>
    exact ih _ (issueStatus_applyOp_resolved op db issueId h)

/-- Claim C7, witness: a concrete database with issue 1 already resolved,
run through a new-issue insert and both respond handlers aimed at another
issue — issue 1 stays `Resolved`. -/
theorem c7_witness :
    issueStatus
      (runOps [IssueOp.create, IssueOp.respondDashboardOp false 9 "hint" 2,
        IssueOp.respondMainOp 9 "answer" 2]
        ⟨[⟨1, .Resolved⟩, ⟨2, .Open⟩], []⟩) 1 = some .Resolved :=
  c7_resolved_never_reopens _ _ 1 (by decide)

/-- Claim C4, counterexample: in the single-file handler, posting a response
to the Open issue 1 — with no resolve flag in existence, let alone set —
inserts the response and flips the issue to `Resolved`, contradicting the
claim that a response without the resolve flag leaves the issue Open. -/
theorem c4_counterexample :
    issueStatus (respondMain 5 "answer" 1 ⟨[⟨1, .Open⟩], []⟩) 1 =
      some .Resolved ∧
    (respondMain 5 "answer" 1 ⟨[⟨1, .Open⟩], []⟩).issue_responses.length = 1 := by
  constructor <;> decide

/-- Claim C4, amended: in the pages dashboard handler an Open issue
transitions to `Resolved` exactly when a response is inserted with the
`mark_resolved` checkbox set, and a response without the flag inserts the
response but leaves the issue Open; the single-file handler instead
resolves unconditionally on any posted response. -/
theorem c4_amended (responderId : Nat) (text : String) (issueId : Nat)
    (db : IssueDB) (htext : text ≠ "")
    (h : issueStatus db issueId = some .Open) :
    issueStatus (respondDashboard true responderId text issueId db) issueId =
      some .Resolved ∧
    issueStatus (respondDashboard false responderId text issueId db) issueId =
      some .Open ∧
    (respondDashboard false responderId text issueId db).issue_responses.length =
      db.issue_responses.length + 1 ∧
    (respondDashboard true responderId text issueId db).issue_responses.length =
      db.issue_responses.length + 1 ∧
    issueStatus (respondMain responderId text issueId db) issueId =
      some .Resolved := by
  obtain ⟨r, hfind⟩ : ∃ r,
      db.task_issues.find? (fun x => x.id == issueId) = some r := by
    unfold issueStatus at h
    cases hf : db.task_issues.find? (fun x => x.id == issueId) with
    | none => rw [hf] at h; simp at h
    | some r => exact ⟨r, rfl⟩
  have hrid : r.id = issueId := by simpa using List.find?_some hfind
  refine ⟨?_, ?_, ?_, ?_, ?_⟩
  · rw [issueStatus_ext,
      respondDashboard_true_task_issues responderId text issueId db htext,
      find?_resolveIssue, hfind]
    simp [hrid]
  · rw [issueStatus_ext,
      respondDashboard_false_task_issues responderId text issueId db htext]
    exact h
  · exact respondDashboard_responses false responderId text issueId db htext
  · exact respondDashboard_responses true responderId text issueId db htext
  · rw [issueStatus_ext, respondMain_task_issues responderId text issueId db htext,
      find?_resolveIssue, hfind]
    simp [hrid]

/-- Claim C4, witness: the amended statement evaluated on a concrete
database with the single Open issue 1 and the response text "answer". -/
theorem c4_witness :
    issueStatus (respondDashboard true 5 "answer" 1 ⟨[⟨1, .Open⟩], []⟩) 1 =
      some .Resolved ∧
    issueStatus (respondDashboard false 5 "answer" 1 ⟨[⟨1, .Open⟩], []⟩) 1 =
      some .Open := by
  have h := c4_amended 5 "answer" 1 ⟨[⟨1, .Open⟩], []⟩ (by decide) (by decide)
  exact ⟨h.1, h.2.1⟩

/-- Modelled from the spec: the `UNIQUE` constraint on the admin username
column lives in `project_tracker.sql`, which is not among the repository
sources; per the spec usernames are unique, so inserting an existing
username raises an integrity error and writes no row. -/
def insertAdminRow (admins : List CredRow) (username hashed : String) :
    Except SqlError (List CredRow) :=
  if admins.any (fun r => r.username == username) then .error .integrityError
  else .ok (admins ++ [⟨admins.length + 1, username, hashed⟩])

/-- Bootstrap seeding step of `utils.init_db` (utils.py lines 27-32): it runs
`SELECT * FROM super_admins WHERE username = 'SateeshAmbesange'` and, when
no row comes back, executes
`INSERT INTO super_admins (username, password) VALUES ('Sateesh', hash)` —
note the checked username and the inserted username differ.  `hash`
abstracts `get_password_hash`; any exception is caught by the surrounding
`except`, which reports an initialization error and stops the app
(modelled as the `Except.error` result). -/
def initSeedUtils (hash : String → String) (admins : List CredRow) :
    Except SqlError (List CredRow) :=
  match admins.find? (fun r => r.username == "SateeshAmbesange") with
  | some _ => .ok admins
  | none => insertAdminRow admins "Sateesh" (hash "Kanasu@1976")

/-- Bootstrap seeding step of the single-file `init_db`
(PragyanAI_Student_ProjectTracker_App.py lines 93-98): it checks and
inserts the same username 'Sateesh' in the `admins` table. -/
def initSeedApp (hash : String → String) (admins : List CredRow) :
    Except SqlError (List CredRow) :=
  match admins.find? (fun r => r.username == "Sateesh") with
  | some _ => .ok admins
  | none => insertAdminRow admins "Sateesh" (hash "Kanasu@1976")

/-- Toy stand-in for the bcrypt hash in the concrete evaluation. -/
def idHash (s : String) : String :=
  s

/-- Claim C6: evaluation at the failing input.  Starting from an empty
table, the first `utils.init_db` run seeds the row ('Sateesh', hash).  A
second run against that very table checks for 'SateeshAmbesange', finds
nothing, and re-attempts the insert of 'Sateesh' — which hits the
uniqueness constraint, so initialization errors out instead of being a
no-op (without the constraint it would insert a duplicate bootstrap row).
The single-file variant, which checks the same username it inserts, is
idempotent as the claim demands. -/
theorem c6_seed_not_idempotent :
    initSeedUtils idHash [] = .ok [⟨1, "Sateesh", "Kanasu@1976"⟩] ∧
    initSeedUtils idHash [⟨1, "Sateesh", "Kanasu@1976"⟩] =
      .error .integrityError ∧
    initSeedApp idHash [⟨1, "Sateesh", "Kanasu@1976"⟩] =
      .ok [⟨1, "Sateesh", "Kanasu@1976"⟩] := by
  refine ⟨rfl, rfl, rfl⟩

/-- Sprint Dashboard progress computation
(PragyanAI_Student_ProjectTracker_App.py lines 379-386): when the sprint's
task list is non-empty, `progress = done_tasks / total_tasks if
total_tasks > 0 else 0` is shown as a progress bar; an empty task list takes
the `else` branch, which shows an info message and no progress bar
(`Option.none` here). -/
def sprintProgress (tasks : List TaskRow) : Option ℚ :=
  if tasks.isEmpty then none
  else
    let total := tasks.length
    let doneCount := (tasks.filter fun t => t.status == .done).length
    some (if total > 0 then (doneCount : ℚ) / (total : ℚ) else 0)

/-- Claim C8: for a sprint with at least one task the dashboard's completion
ratio is exactly (#tasks with status Done) / (#tasks), a well-defined
division by a nonzero denominator; for a sprint with zero tasks no ratio is
computed (no progress bar) and no division is performed. -/
theorem c8_sprint_ratio (tasks : List TaskRow) :
    (tasks ≠ [] →
      ((tasks.length : ℚ) ≠ 0 ∧
        sprintProgress tasks =
          some (((tasks.filter fun t => t.status == .done).length : ℚ) /
            (tasks.length : ℚ)))) ∧
    sprintProgress [] = none := by
  refine ⟨fun hne => ⟨?_, ?_⟩, rfl⟩
  · have : 0 < tasks.length := List.length_pos.mpr hne
    exact_mod_cast Nat.pos_iff_ne_zero.mp this
  · unfold sprintProgress
    have hne2 : tasks.isEmpty = false := by
      simpa [List.isEmpty_iff] using hne
    have hpos : 0 < tasks.length := List.length_pos.mpr hne
    simp [hne2, hpos]

/-- Claim C8, witness: a two-task sprint with one Done task yields the ratio
1/2. -/
theorem c8_witness :
    ([⟨1, .done, some "2024-01-01"⟩, ⟨2, .toDo, none⟩] : List TaskRow) ≠ [] ∧
    sprintProgress [⟨1, .done, some "2024-01-01"⟩, ⟨2, .toDo, none⟩] =
      some ((1 : ℚ) / 2) := by
  have h := (c8_sprint_ratio
    [⟨1, .done, some "2024-01-01"⟩, ⟨2, .toDo, none⟩]).1 (by simp)
  have hlen : (List.filter (fun t : TaskRow => t.status == TaskStatus.done)
      [⟨1, .done, some "2024-01-01"⟩, ⟨2, .toDo, none⟩]).length = 1 := rfl
  refine ⟨by simp, h.2.trans ?_⟩
  rw [hlen]
  norm_num

/-- A `tasks` row restricted to the join keys used by the issue queries. -/
structure TaskKey where
  id : Nat
  project_id : Nat
deriving DecidableEq, Repr

/-- A `task_issues` row of the single-file variant as the manager queries
see it (`request_1_on_1` integer flag, `status` text column). -/
structure AppIssueRow where
  id : Nat
  task_id : Nat
  request_1_on_1 : Bool
  status : IssueStatus
deriving DecidableEq, Repr

/-- A `task_issues` row of the pages variant as the manager dashboard query
sees it (`needs_meeting` flag, `is_resolved` integer, `created_at`
timestamp, here an abstract totally ordered instant). -/
structure PMIssueRow where
  id : Nat
  task_id : Nat
  needs_meeting : Bool
  is_resolved : Bool
  created_at : Nat
deriving DecidableEq, Repr

/-- Meeting-requests query
(PragyanAI_Student_ProjectTracker_App.py lines 319-325):
`... FROM task_issues ti JOIN tasks t ON ti.task_id = t.id WHERE
t.project_id = ? AND ti.request_1_on_1 = 1 AND ti.status = 'Open'`, in
relational set semantics (the team_members join only contributes the
display name and is omitted). -/
def meetingRequestsApp (tasks : List TaskKey) (issues : List AppIssueRow)
    (projId : Nat) : List AppIssueRow :=
  issues.filter fun i =>
    (tasks.any fun t => t.id == i.task_id && t.project_id == projId) &&
      i.request_1_on_1 && (i.status == .Open)

/-- The WHERE clause of the pages manager-dashboard open-issues query
(pages/Project_Manager_Dashboard.py lines 92-100):
`WHERE t.project_id = ? AND ti.is_resolved = 0`. -/
def openIssuesFilterPM (tasks : List TaskKey) (issues : List PMIssueRow)
    (projId : Nat) : List PMIssueRow :=
  issues.filter fun i =>
    (tasks.any fun t => t.id == i.task_id && t.project_id == projId) &&
      !i.is_resolved

/-- Sort rank of `ORDER BY ti.needs_meeting DESC`: under a descending order
on the flag, meeting-requested rows (flag 1) come first. -/
def meetRank (i : PMIssueRow) : Nat :=
  if i.needs_meeting then 0 else 1

/-- The total preorder realised by
`ORDER BY ti.needs_meeting DESC, ti.created_at ASC`. -/
def issueLE (a b : PMIssueRow) : Prop :=
  meetRank a < meetRank b ∨ (meetRank a = meetRank b ∧ a.created_at ≤ b.created_at)

instance : DecidableRel issueLE := fun a b => by
  unfold issueLE
  infer_instance

instance : IsTotal PMIssueRow issueLE :=
  ⟨by
    intro a b
    unfold issueLE
    omega⟩

instance : IsTrans PMIssueRow issueLE :=
  ⟨by
    intro a b c
    unfold issueLE
    omega⟩

/-- The full pages manager-dashboard open-issues query
(pages/Project_Manager_Dashboard.py lines 92-100): the open issues of the
project, ordered by `needs_meeting DESC, created_at ASC` (the ORDER BY is
modelled as sorting the filtered rows by the corresponding total
preorder). -/
def openIssuesOrderedPM (tasks : List TaskKey) (issues : List PMIssueRow)
    (projId : Nat) : List PMIssueRow :=
  List.insertionSort issueLE (openIssuesFilterPM tasks issues projId)

/-- Claim C9: the meeting-requests query returns exactly the Open issues of
the project with `request_1_on_1 = true` — a list distinct from the general
Open queue; and the merged single open-issues list of the manager dashboard
is a permutation of the project's open issues in which every
meeting-requested issue is ordered before every non-meeting issue, with
`created_at` ascending within each group. -/
theorem c9_meeting_requests_and_order (tasks : List TaskKey)
    (issuesA : List AppIssueRow) (issuesP : List PMIssueRow) (projId : Nat)
    (i : AppIssueRow) :
    (i ∈ meetingRequestsApp tasks issuesA projId ↔
      i ∈ issuesA ∧ (∃ t ∈ tasks, t.id = i.task_id ∧ t.project_id = projId) ∧
        i.request_1_on_1 = true ∧ i.status = .Open) ∧
    (openIssuesOrderedPM tasks issuesP projId).Perm
      (openIssuesFilterPM tasks issuesP projId) ∧
    List.Pairwise
      (fun a b : PMIssueRow =>
        (a.needs_meeting = false → b.needs_meeting = false) ∧
        (a.needs_meeting = b.needs_meeting → a.created_at ≤ b.created_at))
      (openIssuesOrderedPM tasks issuesP projId) := by
  refine ⟨?_, ?_, ?_⟩
  · unfold meetingRequestsApp
    simp [List.mem_filter, List.any_eq_true]
    tauto
  · exact List.perm_insertionSort _ _
  · have hs := List.sorted_insertionSort issueLE
      (openIssuesFilterPM tasks issuesP projId)
    refine List.Pairwise.imp ?_ hs
    intro a b hab
    unfold issueLE meetRank at hab
    constructor
    · intro ha
      cases hbm : b.needs_meeting with
      | false => rfl
      | true =>
        rw [ha, hbm] at hab
        simp at hab
    · intro heq
      rw [← heq] at hab
      cases ham : a.needs_meeting <;> simp [ham] at hab <;> exact hab
